import Mathlib

set_option maxHeartbeats 1000000

/-!
Verification of `src/static/responsive-utils.js` (responsive design utilities).

The JavaScript module is shallowly embedded: the viewport-state record and the
pure state-deriving functions are translated to Lean functions, DOM mutation is
modelled by explicit state passing over a `Dom` record, exceptions are modelled
with `Except`, and the browser event loop and `setTimeout` scheduling are
modelled by a discrete timeline.  Machine numbers in the source are CSS pixel
counts and millisecond times, which are plain naturals.
-/

namespace ResponsiveUtils

/-- Viewport state of `ResponsiveManager.viewportState`
(responsive-utils.js lines 18-33).  The device pixel ratio is represented
exactly in hundredths (`pixelRatioCenti` = devicePixelRatio * 100), so the
expression `Math.round(devicePixelRatio * 100)` of the source is
`pixelRatioCenti` itself and `devicePixelRatio >= 2` is `200 ≤ pixelRatioCenti`. -/
structure ViewportState where
  width : Nat
  height : Nat
  isMobile : Bool
  isTablet : Bool
  isDesktop : Bool
  isSmallDesktop : Bool
  isLargeDesktop : Bool
  is4K : Bool
  pixelRatioCenti : Nat
  orientation : String
  zoomLevel : Nat
  isRetina : Bool
  isTouch : Bool
  connection : String
  deriving DecidableEq, Repr

/-- Initial construction of `viewportState` (lines 18-33): the breakpoint
booleans come from `window.innerWidth`, `isTouch` is `false` and `connection`
is `"unknown"` until `init()` runs. -/
def initialViewportState (w h pixelRatioCenti : Nat) : ViewportState :=
  { width := w
    height := h
    isMobile := decide (w < 576)
    isTablet := decide (576 ≤ w ∧ w < 992)
    isDesktop := decide (992 ≤ w)
    isSmallDesktop := decide (992 ≤ w ∧ w < 1200)
    isLargeDesktop := decide (1200 ≤ w)
    is4K := decide (1920 ≤ w)
    pixelRatioCenti := pixelRatioCenti
    orientation := if h > w then "portrait" else "landscape"
    zoomLevel := pixelRatioCenti
    isRetina := decide (200 ≤ pixelRatioCenti)
    isTouch := false
    connection := "unknown" }

/-- Field updates of `updateViewportState` (lines 158-166): width, height and
the six breakpoint booleans; every other field is left alone. -/
def updateViewportFields (width height : Nat) (s : ViewportState) : ViewportState :=
  { s with
    width := width
    height := height
    isMobile := decide (width < 576)
    isTablet := decide (576 ≤ width ∧ width < 992)
    isDesktop := decide (992 ≤ width)
    isSmallDesktop := decide (992 ≤ width ∧ width < 1200)
    isLargeDesktop := decide (1200 ≤ width)
    is4K := decide (1920 ≤ width) }

/-- The `getViewportName` method (lines 200-207). -/
def getViewportName (s : ViewportState) : String :=
  if s.is4K then "4k"
  else if s.isLargeDesktop then "xl"
  else if s.isSmallDesktop then "lg"
  else if s.isDesktop then "md"
  else if s.isTablet then "sm"
  else "xs"

/-- Semantics of `classList.add`: appends unless already present. -/
def classAdd (classes : List String) (c : String) : List String :=
  if c ∈ classes then classes else classes ++ [c]

/-- Semantics of `classList.remove`: removes every occurrence. -/
def classRemove (classes : List String) (c : String) : List String :=
  classes.filter (fun x => x ≠ c)

/-- The class list and attribute map of `document.documentElement`. -/
structure DocElement where
  classes : List String
  attrs : List (String × String)
  deriving DecidableEq, Repr

/-- Semantics of `setAttribute`: replaces the value of an existing key,
otherwise appends the pair. -/
def setAttr (d : DocElement) (k v : String) : DocElement :=
  if d.attrs.any (fun p => p.1 = k) then
    { d with attrs := d.attrs.map (fun p => if p.1 = k then (k, v) else p) }
  else
    { d with attrs := d.attrs ++ [(k, v)] }

/-- The six classes removed at the start of `updateViewportClass` (line 176). -/
def viewportClasses : List String :=
  ["viewport-xs", "viewport-sm", "viewport-md", "viewport-lg", "viewport-xl", "viewport-2xl"]

/-- The `updateViewportClass` method (lines 173-195): clears the viewport
classes, adds one according to the booleans, and sets the `data-viewport` and
`data-touch` attributes. -/
def updateViewportClass (s : ViewportState) (d : DocElement) : DocElement :=
  let cleared := viewportClasses.foldl classRemove d.classes
  let added :=
    if s.is4K then classAdd cleared "viewport-2xl"
    else if s.isLargeDesktop then classAdd cleared "viewport-xl"
    else if s.isSmallDesktop then classAdd cleared "viewport-lg"
    else if s.isDesktop then classAdd cleared "viewport-md"
    else if s.isTablet then classAdd cleared "viewport-sm"
    else classAdd cleared "viewport-xs"
  setAttr (setAttr { d with classes := added } "data-viewport" (getViewportName s))
    "data-touch" (if s.isTouch then "true" else "false")

/-- The `updateViewportState` method (lines 158-168): sets the size-derived
fields and then calls `updateViewportClass` on the document element. -/
def updateViewportState (width height : Nat) (s : ViewportState) (d : DocElement) :
    ViewportState × DocElement :=
  let s' := updateViewportFields width height s
  (s', updateViewportClass s' d)

/-- Position of each viewport name in the breakpoint ordering. -/
def tierIndex (name : String) : Nat :=
  if name = "xs" then 0
  else if name = "sm" then 1
  else if name = "md" then 2
  else if name = "lg" then 3
  else if name = "xl" then 4
  else 5

theorem getViewportName_updateViewportFields (w h : Nat) (s : ViewportState) :
    getViewportName (updateViewportFields w h s) =
      (if 1920 ≤ w then "4k"
       else if 1200 ≤ w then "xl"
       else if 992 ≤ w then "lg"
       else if 576 ≤ w then "sm"
       else "xs") := by
  simp only [getViewportName, updateViewportFields]
  split_ifs <;> simp_all

/-- Viewport name computed from the state derived from a width, at a fixed
height and pixel ratio (the name depends only on the width). -/
def viewportNameAt (w : Nat) : String :=
  getViewportName (updateViewportFields w 768 (initialViewportState 1000 768 100))

/-- C1 counterexample: the claim says the state derived from width 992 yields
viewport name `"md"`, but `getViewportName` returns `"lg"` there, because
`isSmallDesktop` holds at width 992 and its branch precedes the `"md"` branch. -/
theorem C1_boundary_counterexample : viewportNameAt 992 ≠ "md" ∧ viewportNameAt 992 = "lg" := by
  constructor <;> decide

/-- C1 amended: the boundary table of the code is `575 ↦ xs`, `576 ↦ sm`,
`991 ↦ sm`, `992 ↦ lg`, `1199 ↦ lg`, `1200 ↦ xl`, `1919 ↦ xl`, `1920 ↦ 4k`;
a width exactly at a threshold belongs to the higher category, witnessed by the
tier index strictly increasing across each threshold. -/
theorem C1_boundary_values :
    viewportNameAt 575 = "xs" ∧ viewportNameAt 576 = "sm" ∧
    viewportNameAt 991 = "sm" ∧ viewportNameAt 992 = "lg" ∧
    viewportNameAt 1199 = "lg" ∧ viewportNameAt 1200 = "xl" ∧
    viewportNameAt 1919 = "xl" ∧ viewportNameAt 1920 = "4k" ∧
    tierIndex (viewportNameAt 575) < tierIndex (viewportNameAt 576) ∧
    tierIndex (viewportNameAt 991) < tierIndex (viewportNameAt 992) ∧
    tierIndex (viewportNameAt 1199) < tierIndex (viewportNameAt 1200) ∧
    tierIndex (viewportNameAt 1919) < tierIndex (viewportNameAt 1920) := by
  repeat constructor <;> decide

/-- C9: on any width-derived state the `"md"` branch of `getViewportName` is
dead, since `isDesktop` implies `isSmallDesktop` or `isLargeDesktop`; the name
always lies in the five-element set. -/
theorem C9_md_unreachable (w h : Nat) (s : ViewportState) :
    getViewportName (updateViewportFields w h s) ≠ "md" ∧
    getViewportName (updateViewportFields w h s) ∈ ["xs", "sm", "lg", "xl", "4k"] := by
  rw [getViewportName_updateViewportFields]
  split_ifs <;> simp

/-- C6: `getViewportName` always returns one of the six names, its branch
order realizes the precedence 4K, then large desktop, then small desktop, then
desktop, then tablet, else `"xs"`, and on width-derived states the tier index
is monotone in the width. -/
theorem C6_viewport_name_monotone (w w' h h' : Nat) (s s' : ViewportState) :
    getViewportName (updateViewportFields w h s) ∈ ["xs", "sm", "md", "lg", "xl", "4k"] ∧
    (∀ t : ViewportState,
      (t.is4K = true → getViewportName t = "4k") ∧
      (t.is4K = false → t.isLargeDesktop = true → getViewportName t = "xl") ∧
      (t.is4K = false → t.isLargeDesktop = false → t.isSmallDesktop = true →
        getViewportName t = "lg") ∧
      (t.is4K = false → t.isLargeDesktop = false → t.isSmallDesktop = false →
        t.isDesktop = true → getViewportName t = "md") ∧
      (t.is4K = false → t.isLargeDesktop = false → t.isSmallDesktop = false →
        t.isDesktop = false → t.isTablet = true → getViewportName t = "sm") ∧
      (t.is4K = false → t.isLargeDesktop = false → t.isSmallDesktop = false →
        t.isDesktop = false → t.isTablet = false → getViewportName t = "xs")) ∧
    (w ≤ w' →
      tierIndex (getViewportName (updateViewportFields w h s)) ≤
        tierIndex (getViewportName (updateViewportFields w' h' s'))) := by
  refine ⟨?_, ?_, ?_⟩
  · rw [getViewportName_updateViewportFields]
    split_ifs <;> simp
  · intro t
    refine ⟨?_, ?_, ?_, ?_, ?_, ?_⟩ <;>
      · intros
        simp_all [getViewportName]
  · intro hww
    rw [getViewportName_updateViewportFields, getViewportName_updateViewportFields]
    split_ifs <;> simp_all [tierIndex] <;> omega

/-- Mock state whose booleans hit the `"md"` branch of `getViewportName`; it is
not derivable from any width, which is exactly what C9 establishes. -/
def mdFlagState : ViewportState :=
  { width := 0, height := 0, isMobile := false, isTablet := false, isDesktop := true,
    isSmallDesktop := false, isLargeDesktop := false, is4K := false,
    pixelRatioCenti := 100, orientation := "landscape", zoomLevel := 100,
    isRetina := false, isTouch := false, connection := "unknown" }

theorem C6_witness :
    getViewportName (updateViewportFields 800 600 (initialViewportState 1000 768 100)) ∈
      ["xs", "sm", "md", "lg", "xl", "4k"] ∧
    getViewportName mdFlagState = "md" ∧
    tierIndex (getViewportName (updateViewportFields 800 600 (initialViewportState 1000 768 100))) ≤
      tierIndex (getViewportName (updateViewportFields 1300 700 (initialViewportState 1000 768 100))) := by
  have h := C6_viewport_name_monotone 800 1300 600 700
    (initialViewportState 1000 768 100) (initialViewportState 1000 768 100)
  exact ⟨h.1, ((h.2.1 mdFlagState).2.2.2.1 rfl rfl rfl rfl), h.2.2 (by omega)⟩

/-- Flags of the five mutually exclusive categories of the data model. -/
def categoryFlags (s : ViewportState) : List Bool :=
  [s.isMobile, s.isTablet, s.isSmallDesktop, s.isLargeDesktop && !s.is4K, s.is4K]

/-- Exactly one of mobile, tablet, small desktop, large-desktop-non-4K, 4K. -/
def exactlyOneCategory (s : ViewportState) : Prop :=
  (categoryFlags s).count true = 1

theorem count_flags_of_width (w : Nat) :
    ([decide (w < 576), decide (576 ≤ w ∧ w < 992), decide (992 ≤ w ∧ w < 1200),
      decide (1200 ≤ w) && !decide (1920 ≤ w), decide (1920 ≤ w)].count true) = 1 := by
  by_cases h1 : w < 576 <;> by_cases h2 : w < 992 <;> by_cases h3 : w < 1200 <;>
    by_cases h4 : w < 1920 <;> simp_all <;> omega

theorem desktop_flag_absorb (w : Nat) :
    (decide (992 ≤ w ∧ w < 1200) || decide (1200 ≤ w) || decide (992 ≤ w)) =
      decide (992 ≤ w) := by
  by_cases h : 992 ≤ w <;> by_cases h' : 1200 ≤ w <;> simp_all <;> omega

/-- C7: both the initial construction of `viewportState` and every
`updateViewportState` field pass yield a state in which exactly one of the five
categories holds, and in which `isDesktop` is true whenever `isSmallDesktop` or
`isLargeDesktop` is true; the breakpoint booleans depend only on the width. -/
theorem C7_category_invariant (w h pc : Nat) (s : ViewportState) :
    exactlyOneCategory (initialViewportState w h pc) ∧
    exactlyOneCategory (updateViewportFields w h s) ∧
    ((initialViewportState w h pc).isSmallDesktop || (initialViewportState w h pc).isLargeDesktop
        || (initialViewportState w h pc).isDesktop) = (initialViewportState w h pc).isDesktop ∧
    ((updateViewportFields w h s).isSmallDesktop || (updateViewportFields w h s).isLargeDesktop
        || (updateViewportFields w h s).isDesktop) = (updateViewportFields w h s).isDesktop := by
  exact ⟨count_flags_of_width w, count_flags_of_width w,
    desktop_flag_absorb w, desktop_flag_absorb w⟩

/-- Inline style properties that the adjustment procedures write. -/
structure ElemStyle where
  maxHeight : Option String := none
  fontSize : Option String := none
  margin : Option String := none
  deriving DecidableEq, Repr

/-- A `.modal-dialog` element: class list plus inline style. -/
structure Modal where
  classes : List String
  style : ElemStyle
  deriving DecidableEq, Repr

/-- An `.asset-table` element together with the result of
`closest('.table-responsive') || closest('.asset-table-container')`:
`none` when no scrollable ancestor matches. -/
structure TableElem where
  container : Option ElemStyle
  deriving DecidableEq, Repr

/-- The slice of the page DOM the module reads and writes: the root element,
the two logo selectors, and the element lists matched by the chart, table and
modal selectors. -/
structure Dom where
  docElem : DocElement
  logo : Option ElemStyle
  facilitiesLogo : Option ElemStyle
  charts : List ElemStyle
  tables : List TableElem
  modals : List Modal
  deriving DecidableEq, Repr

/-- Three-tier logo height of `adjustNavbarLogo` (lines 233-251). -/
def logoMaxHeight (s : ViewportState) : String :=
  if s.isMobile then "50px" else if s.isTablet then "70px" else "85px"

def setMaxHeight (v : String) (e : ElemStyle) : ElemStyle :=
  { e with maxHeight := some v }

/-- The `adjustNavbarLogo` method (lines 229-252): sets `style.maxHeight` on
the logo elements when present; silent no-op when a selector matches nothing. -/
def adjustNavbarLogo (s : ViewportState) (d : Dom) : Dom :=
  { d with
    logo := d.logo.map (setMaxHeight (logoMaxHeight s))
    facilitiesLogo := d.facilitiesLogo.map (setMaxHeight (logoMaxHeight s)) }

/-- Three-tier chart height of `adjustChartSizes` (lines 260-268). -/
def chartMaxHeight (s : ViewportState) : String :=
  if s.isMobile then "50vh" else if s.isTablet then "60vh" else "70vh"

/-- The `adjustChartSizes` method (lines 257-269): sets `style.maxHeight` on
every chart element. -/
def adjustChartSizes (s : ViewportState) (d : Dom) : Dom :=
  { d with charts := d.charts.map (setMaxHeight (chartMaxHeight s)) }

/-- Per-table action of `adjustTableDisplay` (lines 277-285): sets the font
size of the scrollable ancestor when it exists, two-tier on `isMobile`. -/
def adjustTableElem (s : ViewportState) (t : TableElem) : TableElem :=
  match t.container with
  | some c =>
      if s.isMobile then { t with container := some { c with fontSize := some "0.85rem" } }
      else { t with container := some { c with fontSize := some "1rem" } }
  | none => t

/-- The `adjustTableDisplay` method (lines 274-286). -/
def adjustTableDisplay (s : ViewportState) (d : Dom) : Dom :=
  { d with tables := d.tables.map (adjustTableElem s) }

/-- Per-modal action of `handleModalResponsiveness` (lines 294-302): toggles
the scrollable class and sets the margin, two-tier on `isMobile`. -/
def adjustModal (s : ViewportState) (m : Modal) : Modal :=
  if s.isMobile then
    { classes := classAdd m.classes "modal-dialog-scrollable"
      style := { m.style with margin := some "0.5rem" } }
  else
    { classes := classRemove m.classes "modal-dialog-scrollable"
      style := { m.style with margin := some "1.75rem auto" } }

/-- The `handleModalResponsiveness` method (lines 291-303). -/
def handleModalResponsiveness (s : ViewportState) (d : Dom) : Dom :=
  { d with modals := d.modals.map (adjustModal s) }

/-- The `applyResponsiveAdjustments` method (lines 212-224): the four
procedures run in source order as one adjustment pass. -/
def applyResponsiveAdjustments (s : ViewportState) (d : Dom) : Dom :=
  handleModalResponsiveness s (adjustTableDisplay s (adjustChartSizes s (adjustNavbarLogo s d)))

theorem setMaxHeight_idem (v : String) (e : ElemStyle) :
    setMaxHeight v (setMaxHeight v e) = setMaxHeight v e := rfl

theorem adjustTableElem_idem (s : ViewportState) (t : TableElem) :
    adjustTableElem s (adjustTableElem s t) = adjustTableElem s t := by
  cases t with
  | mk container =>
    cases container <;> simp [adjustTableElem] <;> split_ifs <;> simp

theorem classAdd_idem (cs : List String) (c : String) :
    classAdd (classAdd cs c) c = classAdd cs c := by
  simp [classAdd]
  split_ifs with h h' <;> simp_all

theorem classRemove_idem (cs : List String) (c : String) :
    classRemove (classRemove cs c) c = classRemove cs c := by
  simp [classRemove, List.filter_filter]

theorem adjustModal_idem (s : ViewportState) (m : Modal) :
    adjustModal s (adjustModal s m) = adjustModal s m := by
  simp [adjustModal]
  split_ifs <;> simp [classAdd_idem, classRemove_idem]

/-- C8: one full adjustment pass is idempotent for every state and every DOM
(no accumulation or drift), and each of the four procedures leaves the DOM
unchanged when zero elements match its selectors. -/
theorem C8_adjustment_pass_idempotent (s : ViewportState) (d : Dom) :
    applyResponsiveAdjustments s (applyResponsiveAdjustments s d) =
      applyResponsiveAdjustments s d ∧
    (d.logo = none → d.facilitiesLogo = none → adjustNavbarLogo s d = d) ∧
    (d.charts = [] → adjustChartSizes s d = d) ∧
    (d.tables = [] → adjustTableDisplay s d = d) ∧
    (d.modals = [] → handleModalResponsiveness s d = d) := by
  refine ⟨?_, ?_, ?_, ?_, ?_⟩
  · simp only [applyResponsiveAdjustments, handleModalResponsiveness, adjustTableDisplay,
      adjustChartSizes, adjustNavbarLogo]
    simp [Option.map_map, List.map_map, Function.comp_def,
      setMaxHeight_idem, adjustTableElem_idem, adjustModal_idem]
  · intro h1 h2
    cases d
    simp_all [adjustNavbarLogo]
  · intro h1
    cases d
    simp_all [adjustChartSizes]
  · intro h1
    cases d
    simp_all [adjustTableDisplay]
  · intro h1
    cases d
    simp_all [handleModalResponsiveness]

/-- DOM with zero matches for every selector of the adjustment pass. -/
def emptyDom : Dom :=
  { docElem := { classes := [], attrs := [] }, logo := none, facilitiesLogo := none,
    charts := [], tables := [], modals := [] }

theorem C8_witness :
    applyResponsiveAdjustments (initialViewportState 1000 768 100)
        (applyResponsiveAdjustments (initialViewportState 1000 768 100) emptyDom) =
      applyResponsiveAdjustments (initialViewportState 1000 768 100) emptyDom ∧
    adjustNavbarLogo (initialViewportState 1000 768 100) emptyDom = emptyDom ∧
    adjustChartSizes (initialViewportState 1000 768 100) emptyDom = emptyDom ∧
    adjustTableDisplay (initialViewportState 1000 768 100) emptyDom = emptyDom ∧
    handleModalResponsiveness (initialViewportState 1000 768 100) emptyDom = emptyDom := by
  have h := C8_adjustment_pass_idempotent (initialViewportState 1000 768 100) emptyDom
  exact ⟨h.1, h.2.1 rfl rfl, h.2.2.1 rfl, h.2.2.2.1 rfl, h.2.2.2.2 rfl⟩

abbrev Event := String

/-- Observable effects of a handler run: one full style-adjustment pass, or one
`triggerListeners` call delivering the named event to every subscriber. -/
inductive Effect
  | adjustPass
  | notified (ev : Event)
  deriving DecidableEq, Repr

/-- The `onResize` method (lines 104-114): the handler reads the freshly
observed dimensions; when either differs from the stored state it updates the
state, re-runs the adjustment pass and notifies `"resize"`, otherwise it does
nothing. -/
def onResize (newWidth newHeight : Nat) (s : ViewportState) (d : Dom) :
    ViewportState × Dom × List Effect :=
  if newWidth ≠ s.width ∨ newHeight ≠ s.height then
    let sd := updateViewportState newWidth newHeight s d.docElem
    let d' := applyResponsiveAdjustments sd.1 { d with docElem := sd.2 }
    (sd.1, d', [Effect.adjustPass, Effect.notified "resize"])
  else
    (s, d, [])

/-- The `onOrientationChange` method (lines 119-127): recomputes the
orientation from the observed dimensions and only on a change stores it, sets
`data-orientation` and notifies; no adjustment pass. -/
def onOrientationChange (obsW obsH : Nat) (s : ViewportState) (d : Dom) :
    ViewportState × Dom × List Effect :=
  let o := if obsH > obsW then "portrait" else "landscape"
  if o ≠ s.orientation then
    ({ s with orientation := o },
     { d with docElem := setAttr d.docElem "data-orientation" o },
     [Effect.notified "orientationchange"])
  else
    (s, d, [])

/-- The `onZoomChange` method (lines 145-153): recomputes the zoom estimate
and only on a change stores it and notifies `"zoom"`. -/
def onZoomChange (currentZoom : Nat) (s : ViewportState) (d : Dom) :
    ViewportState × Dom × List Effect :=
  if currentZoom ≠ s.zoomLevel then
    ({ s with zoomLevel := currentZoom }, d, [Effect.notified "zoom"])
  else
    (s, d, [])

/-- The `onVisibilityChange` method (lines 132-140): notifies `"hide"` when the
document became hidden; otherwise re-runs the resize path and then notifies
`"show"`. -/
def onVisibilityChange (hidden : Bool) (obsW obsH : Nat) (s : ViewportState) (d : Dom) :
    ViewportState × Dom × List Effect :=
  if hidden then
    (s, d, [Effect.notified "hide"])
  else
    let r := onResize obsW obsH s d
    (r.1, r.2.1, r.2.2 ++ [Effect.notified "show"])

/-- C4: when the observed dimensions both equal the stored ones, `onResize`
returns the state and DOM untouched with no adjustment pass and no
notification; when either differs, the result state carries all eight
size-derived fields recomputed from the new width while every other field is
kept, and the effect trace is exactly one adjustment pass followed by exactly
one `"resize"` notification. -/
theorem C4_onResize_guard (w h : Nat) (s : ViewportState) (d : Dom) :
    (w = s.width → h = s.height → onResize w h s d = (s, d, [])) ∧
    (w ≠ s.width ∨ h ≠ s.height →
      (onResize w h s d).1 = updateViewportFields w h s ∧
      (onResize w h s d).1.width = w ∧
      (onResize w h s d).1.height = h ∧
      (onResize w h s d).1.isMobile = decide (w < 576) ∧
      (onResize w h s d).1.isTablet = decide (576 ≤ w ∧ w < 992) ∧
      (onResize w h s d).1.isDesktop = decide (992 ≤ w) ∧
      (onResize w h s d).1.isSmallDesktop = decide (992 ≤ w ∧ w < 1200) ∧
      (onResize w h s d).1.isLargeDesktop = decide (1200 ≤ w) ∧
      (onResize w h s d).1.is4K = decide (1920 ≤ w) ∧
      (onResize w h s d).1.orientation = s.orientation ∧
      (onResize w h s d).1.zoomLevel = s.zoomLevel ∧
      (onResize w h s d).1.isTouch = s.isTouch ∧
      (onResize w h s d).1.connection = s.connection ∧
      (onResize w h s d).2.1 =
        applyResponsiveAdjustments (updateViewportFields w h s)
          { d with docElem := updateViewportClass (updateViewportFields w h s) d.docElem } ∧
      (onResize w h s d).2.2 = [Effect.adjustPass, Effect.notified "resize"]) := by
  constructor
  · intro h1 h2
    simp [onResize, h1, h2]
  · intro hne
    simp [onResize, hne, updateViewportState, updateViewportFields]

theorem C4_witness :
    onResize 1000 768 (initialViewportState 1000 768 100) emptyDom =
      (initialViewportState 1000 768 100, emptyDom, []) ∧
    (onResize 500 600 (initialViewportState 1000 768 100) emptyDom).1 =
      updateViewportFields 500 600 (initialViewportState 1000 768 100) ∧
    (onResize 500 600 (initialViewportState 1000 768 100) emptyDom).2.2 =
      [Effect.adjustPass, Effect.notified "resize"] := by
  have hEq := (C4_onResize_guard 1000 768 (initialViewportState 1000 768 100) emptyDom).1 rfl rfl
  have hNe := (C4_onResize_guard 500 600 (initialViewportState 1000 768 100) emptyDom).2
    (Or.inl (by decide))
  exact ⟨hEq, hNe.1, hNe.2.2.2.2.2.2.2.2.2.2.2.2.2.2⟩

/-- Outcome of one subscriber callback invocation: normal return or a thrown
exception carrying a message. -/
inductive CallbackResult
  | ok
  | threw (msg : String)
  deriving DecidableEq, Repr

/-- A subscriber callback.  `run` receives the event name and the live state,
exactly the two arguments `triggerListeners` passes; the numeric id only
identifies the callback in the trace. -/
structure Callback where
  id : Nat
  run : Event → ViewportState → CallbackResult

/-- Trace entries of one `triggerListeners` call: a callback invocation with
the arguments it received, and a `console.error` record for a caught throw. -/
inductive ListenerLog
  | invoked (id : Nat) (ev : Event) (st : ViewportState)
  | errorLogged (id : Nat) (msg : String)
  deriving DecidableEq, Repr

/-- Loop body of `triggerListeners` (lines 316-322): the callback is called
with the event and the state inside `try`; a throw is caught and logged, so the
body always returns to the loop. -/
def invokeListener (ev : Event) (st : ViewportState) (cb : Callback) : List ListenerLog :=
  match cb.run ev st with
  | CallbackResult.ok => [ListenerLog.invoked cb.id ev st]
  | CallbackResult.threw m => [ListenerLog.invoked cb.id ev st, ListenerLog.errorLogged cb.id m]

/-- The `triggerListeners` method (lines 315-323): iterates the registry in
order; because every throw is caught inside the loop body, the method returns
a plain trace and no exception reaches its caller. -/
def triggerListeners (listeners : List Callback) (ev : Event) (st : ViewportState) :
    List ListenerLog :=
  (listeners.map (invokeListener ev st)).flatten

/-- The `subscribe` method (lines 308-310): appends to the registry. -/
def subscribe (listeners : List Callback) (cb : Callback) : List Callback :=
  listeners ++ [cb]

/-- Ids of the callbacks a trace shows as invoked, in order. -/
def invokedIds (t : List ListenerLog) : List Nat :=
  t.filterMap fun e =>
    match e with
    | ListenerLog.invoked i _ _ => some i
    | ListenerLog.errorLogged _ _ => none

theorem invokedIds_append (t t' : List ListenerLog) :
    invokedIds (t ++ t') = invokedIds t ++ invokedIds t' := by
  simp [invokedIds]

theorem invokedIds_invokeListener (ev : Event) (st : ViewportState) (cb : Callback) :
    invokedIds (invokeListener ev st cb) = [cb.id] := by
  cases h : cb.run ev st <;> simp [invokeListener, h, invokedIds]

/-- C3: every registered callback is invoked, in subscription order, with the
event name and the live state; a throw is logged and does not stop later
callbacks nor escape (the trace of a registry extended by `subscribe` is the
old trace followed by the new callback, and the invoked ids always equal the
whole registry in order). -/
theorem C3_listener_isolation (listeners : List Callback) (ev : Event) (st : ViewportState) :
    invokedIds (triggerListeners listeners ev st) = listeners.map Callback.id ∧
    (∀ i e s', ListenerLog.invoked i e s' ∈ triggerListeners listeners ev st →
      e = ev ∧ s' = st) ∧
    (∀ cb m, cb ∈ listeners → cb.run ev st = CallbackResult.threw m →
      ListenerLog.errorLogged cb.id m ∈ triggerListeners listeners ev st) ∧
    (∀ cb, triggerListeners (subscribe listeners cb) ev st =
      triggerListeners listeners ev st ++ invokeListener ev st cb) := by
  refine ⟨?_, ?_, ?_, ?_⟩
  · induction listeners with
    | nil => simp [triggerListeners, invokedIds]
    | cons hd tl ih =>
      simp only [triggerListeners, List.map_cons, List.flatten_cons] at *
      rw [invokedIds_append, ih, invokedIds_invokeListener]
      simp
  · induction listeners with
    | nil => simp [triggerListeners]
    | cons hd tl ih =>
      intro i e s' hmem
      simp only [triggerListeners, List.map_cons, List.flatten_cons, List.mem_append] at hmem
      rcases hmem with hmem | hmem
      · cases h : hd.run ev st <;> simp [invokeListener, h] at hmem <;> simp_all
      · exact ih i e s' hmem
  · induction listeners with
    | nil => simp
    | cons hd tl ih =>
      intro cb m hmem hrun
      simp only [triggerListeners, List.map_cons, List.flatten_cons, List.mem_append]
      rcases List.mem_cons.mp hmem with hmem | hmem
      · subst hmem
        left
        simp [invokeListener, hrun]
      · exact Or.inr (ih cb m hmem hrun)
  · intro cb
    simp [triggerListeners, subscribe]

/-- Demonstration registry: a well-behaved callback, then one that always
throws, then a later well-behaved one. -/
def demoListeners : List Callback :=
  [{ id := 0, run := fun _ _ => CallbackResult.ok },
   { id := 1, run := fun _ _ => CallbackResult.threw "boom" },
   { id := 2, run := fun _ _ => CallbackResult.ok }]

theorem C3_witness :
    invokedIds (triggerListeners demoListeners "resize" (initialViewportState 1000 768 100)) =
      [0, 1, 2] ∧
    ListenerLog.errorLogged 1 "boom" ∈
      triggerListeners demoListeners "resize" (initialViewportState 1000 768 100) ∧
    ListenerLog.invoked 2 "resize" (initialViewportState 1000 768 100) ∈
      triggerListeners demoListeners "resize" (initialViewportState 1000 768 100) := by
  have h := C3_listener_isolation demoListeners "resize" (initialViewportState 1000 768 100)
  refine ⟨h.1, ?_, ?_⟩
  · exact h.2.2.1 { id := 1, run := fun _ _ => CallbackResult.threw "boom" } "boom"
      (by simp [demoListeners]) rfl
  · decide

/-- Sequential execution of initialization steps, where each step either
returns normally (`Except.ok ()`) or throws with a message: runs steps in
order until the first throw, returning how many completed and the thrown
message if any; steps after a throw are not run. -/
def runUntilThrow : List (Except String Unit) → Nat × Option String
  | [] => (0, none)
  | Except.ok _ :: rest =>
      let r := runUntilThrow rest
      (r.1 + 1, r.2)
  | Except.error m :: _ => (0, some m)

/-- First `DOMContentLoaded` handler (lines 440-464): the four manager `init`
calls and the final log run inside one `try`; a throw is caught by the
`catch` and written to `console.error`, so the handler always returns
normally, with only the steps after the failure point skipped.  The result is
the number of completed steps and the logged error, and the plain (non
`Except`) result type records that no exception leaves the handler. -/
def dcl1Handler (steps : List (Except String Unit)) : Nat × Option String :=
  runUntilThrow steps

/-- Second `DOMContentLoaded` handler (lines 565-569): runs
`window.ResponsiveManager.init()` and then `window.enhanceFormResponsiveness()`
with no `try`/`catch`, so a throw propagates out of the handler. -/
def dcl2Handler (steps : List (Except String Unit)) : Except String Nat :=
  match runUntilThrow steps with
  | (n, none) => Except.ok n
  | (_, some m) => Except.error m

/-- C2 counterexample: the claim says every exception thrown during startup
initialization is caught at the outermost startup handler; but when the first
step of the second `DOMContentLoaded` handler throws, the exception propagates
out of that handler. -/
theorem C2_second_handler_propagates :
    dcl2Handler [Except.error "boom", Except.ok ()] = Except.error "boom" := rfl

theorem runUntilThrow_all_ok (steps : List (Except String Unit))
    (h : ∀ x ∈ steps, x = Except.ok ()) : runUntilThrow steps = (steps.length, none) := by
  induction steps with
  | nil => rfl
  | cons hd tl ih =>
    have hhd : hd = Except.ok () := h hd (List.mem_cons_self hd tl)
    subst hhd
    simp [runUntilThrow, ih (fun x hx => h x (List.mem_cons_of_mem _ hx))]

/-- C2 amended: only the first `DOMContentLoaded` handler guards its
initialization sequence.  A throw there is caught and logged, the handler
returns normally, and exactly the steps before the failure point have run;
when no step throws, all of them run.  The second handler has no guard and an
exception in it propagates. -/
theorem C2_first_handler_catches (pre post : List (Except String Unit)) (m : String)
    (hpre : ∀ x ∈ pre, x = Except.ok ()) :
    dcl1Handler (pre ++ Except.error m :: post) = (pre.length, some m) ∧
    (∀ steps : List (Except String Unit), (∀ x ∈ steps, x = Except.ok ()) →
      dcl1Handler steps = (steps.length, none)) ∧
    dcl2Handler (pre ++ Except.error m :: post) = Except.error m := by
  have key : runUntilThrow (pre ++ Except.error m :: post) = (pre.length, some m) := by
    induction pre with
    | nil => simp [runUntilThrow]
    | cons hd tl ih =>
      have hhd : hd = Except.ok () := hpre hd (List.mem_cons_self hd tl)
      subst hhd
      simp [runUntilThrow, ih (fun x hx => hpre x (List.mem_cons_of_mem _ hx))]
  refine ⟨key, fun steps hs => runUntilThrow_all_ok steps hs, ?_⟩
  simp [dcl2Handler, key]

theorem C2_witness :
    dcl1Handler [Except.ok (), Except.error "boom", Except.ok (), Except.ok ()] =
      (1, some "boom") ∧
    dcl1Handler [Except.ok (), Except.ok ()] = (2, none) ∧
    dcl2Handler [Except.ok (), Except.error "boom", Except.ok (), Except.ok ()] =
      Except.error "boom" := by
  have h := C2_first_handler_catches [Except.ok ()] [Except.ok (), Except.ok ()] "boom"
    (by intro x hx; simpa using hx)
  exact ⟨h.1, h.2.1 [Except.ok (), Except.ok ()] (by intro x hx; simp at hx; simp [hx]), h.2.2⟩

/-- Environment read by the zoom handler: the value of
`Math.round(window.devicePixelRatio * 100)` as a function of the millisecond
timestamp at which it is read. -/
structure ZoomEnv where
  zoomAt : Nat → Nat

/-- Scheduler state of the closure produced by `debounce` (lines 89-98): the
due time of the pending `setTimeout` handle, if any, and the trace of handler
invocations so far as pairs of the invocation time and the zoom value read at
that time. -/
structure DebState where
  pending : Option Nat
  fired : List (Nat × Nat)
  deriving DecidableEq, Repr

/-- One wheel event at time `t` processed by the debounced function: a pending
timer that already came due has fired before the event; then `clearTimeout`
cancels any still-pending invocation and `setTimeout` re-arms it for
`t + wait` (last-write-wins). -/
def debounceEventStep (wait : Nat) (env : ZoomEnv) (s : DebState) (t : Nat) : DebState :=
  match s.pending with
  | none => { pending := some (t + wait), fired := s.fired }
  | some f =>
      if f ≤ t then
        { pending := some (t + wait), fired := s.fired ++ [(f, env.zoomAt f)] }
      else
        { pending := some (t + wait), fired := s.fired }

/-- Timeline semantics of the debounced `onZoomChange` registration (line 54):
process the wheel events in time order, then let the clock run to `endTime`,
firing the surviving timer if it comes due. -/
def debounceSim (wait : Nat) (env : ZoomEnv) (events : List Nat) (endTime : Nat) :
    List (Nat × Nat) :=
  let s := events.foldl (debounceEventStep wait env) { pending := none, fired := [] }
  match s.pending with
  | none => s.fired
  | some f => if f ≤ endTime then s.fired ++ [(f, env.zoomAt f)] else s.fired

theorem debounce_fold_chain (wait : Nat) (env : ZoomEnv) (e : Nat) (es : List Nat)
    (h : List.Chain (fun a b => a ≤ b ∧ b < a + wait) e es) (fired : List (Nat × Nat)) :
    es.foldl (debounceEventStep wait env) { pending := some (e + wait), fired := fired } =
      { pending := some (es.getLastD e + wait), fired := fired } := by
  induction es generalizing e with
  | nil => rfl
  | cons a tl ih =>
    cases h with
    | cons hab htl =>
      have hstep : debounceEventStep wait env { pending := some (e + wait), fired := fired } a =
          { pending := some (a + wait), fired := fired } := by
        simp [debounceEventStep, Nat.not_le.mpr hab.2]
      rw [List.foldl_cons, hstep, ih a htl, List.getLastD_cons]

/-- C5: for any run of one or more wheel events in which each event arrives
within 500 ms of the previous one, the debounced zoom handler runs exactly
once, 500 ms after the last event, reading the device-pixel-ratio derived zoom
value at that time; before that due time no invocation has happened at all
(each event cancelled the previously pending one). -/
theorem C5_debounce_single_invocation (env : ZoomEnv) (e : Nat) (es : List Nat) (endTime : Nat)
    (hchain : List.Chain (fun a b => a ≤ b ∧ b < a + 500) e es)
    (hend : es.getLastD e + 500 ≤ endTime) :
    debounceSim 500 env (e :: es) endTime =
      [(es.getLastD e + 500, env.zoomAt (es.getLastD e + 500))] ∧
    debounceSim 500 env (e :: es) (es.getLastD e + 499) = [] := by
  have hfold : (e :: es).foldl (debounceEventStep 500 env) { pending := none, fired := [] } =
      { pending := some (es.getLastD e + 500), fired := [] } := by
    rw [List.foldl_cons]
    exact debounce_fold_chain 500 env e es hchain []
  constructor
  · simp only [debounceSim, hfold]
    rw [if_pos hend]
    simp
  · simp only [debounceSim, hfold]
    rw [if_neg (by omega)]

theorem C5_witness :
    debounceSim 500 { zoomAt := fun t => 100 + t } (100 :: [300, 650]) 2000 =
      [(1150, 1250)] ∧
    debounceSim 500 { zoomAt := fun t => 100 + t } (100 :: [300, 650]) 1149 = [] := by
  have h := C5_debounce_single_invocation { zoomAt := fun t => 100 + t } 100 [300, 650] 2000
    (List.Chain.cons ⟨by omega, by omega⟩ (List.Chain.cons ⟨by omega, by omega⟩ List.Chain.nil))
    (by decide)
  exact ⟨h.1, h.2⟩

/-- Platform events `ResponsiveManager.init` registers handlers for
(lines 49-54). -/
inductive EvType
  | resize
  | orientationchange
  | visibilitychange
  | wheel
  deriving DecidableEq, Repr

/-- Handler registrations performed by one `ResponsiveManager.init()` call
(lines 49-54): `onResize`, `onOrientationChange`, `onVisibilityChange` and the
debounced `onZoomChange`. -/
def initRegistrations : List EvType :=
  [EvType.resize, EvType.orientationchange, EvType.visibilitychange, EvType.wheel]

/-- Registrations after startup: `DOMContentLoaded` fires once and both
registered handlers run, the one of lines 440-464 and the one of lines
565-569, and each of them calls `ResponsiveManager.init()`, so the four
platform registrations are performed twice. -/
def startupRegistrations : List EvType :=
  initRegistrations ++ initRegistrations

/-- Sequential dispatch of one browser event to `n` registered copies of the
same handler, threading state and DOM and concatenating the effect traces. -/
def dispatchN (handler : ViewportState → Dom → ViewportState × Dom × List Effect) :
    Nat → ViewportState → Dom → ViewportState × Dom × List Effect
  | 0, s, d => (s, d, [])
  | Nat.succ n, s, d =>
      let r := handler s d
      let r' := dispatchN handler n r.1 r.2.1
      (r'.1, r'.2.1, r.2.2 ++ r'.2.2)

theorem dispatch2_effects (handler : ViewportState → Dom → ViewportState × Dom × List Effect)
    (s : ViewportState) (d : Dom) :
    (dispatchN handler 2 s d).2.2 =
      (handler s d).2.2 ++ (handler (handler s d).1 (handler s d).2.1).2.2 := by
  simp [dispatchN]

theorem onResize_noop_of_eq (w h : Nat) (s : ViewportState) (d : Dom)
    (h1 : s.width = w) (h2 : s.height = h) : onResize w h s d = (s, d, []) := by
  simp [onResize, h1, h2]

theorem onResize_sets_size (w h : Nat) (s : ViewportState) (d : Dom) :
    (onResize w h s d).1.width = w ∧ (onResize w h s d).1.height = h := by
  unfold onResize
  split_ifs with h1
  · simp [updateViewportState, updateViewportFields]
  · push_neg at h1
    exact ⟨h1.1.symm, h1.2.symm⟩

theorem onResize_second_noop (w h : Nat) (s : ViewportState) (d : Dom) :
    onResize w h (onResize w h s d).1 (onResize w h s d).2.1 =
      ((onResize w h s d).1, (onResize w h s d).2.1, []) := by
  have hs := onResize_sets_size w h s d
  exact onResize_noop_of_eq w h _ _ hs.1 hs.2

theorem onOrientationChange_noop_of_eq (w h : Nat) (s : ViewportState) (d : Dom)
    (h1 : s.orientation = (if h > w then "portrait" else "landscape")) :
    onOrientationChange w h s d = (s, d, []) := by
  simp [onOrientationChange, h1.symm]

theorem onOrientationChange_sets (w h : Nat) (s : ViewportState) (d : Dom) :
    (onOrientationChange w h s d).1.orientation =
      (if h > w then "portrait" else "landscape") := by
  unfold onOrientationChange
  by_cases h1 : h > w <;> simp [h1] <;> split_ifs <;> simp_all

theorem onZoomChange_noop_of_eq (z : Nat) (s : ViewportState) (d : Dom)
    (h1 : s.zoomLevel = z) : onZoomChange z s d = (s, d, []) := by
  simp [onZoomChange, h1]

theorem onZoomChange_sets (z : Nat) (s : ViewportState) (d : Dom) :
    (onZoomChange z s d).1.zoomLevel = z := by
  unfold onZoomChange
  split_ifs with h1 <;> simp_all

/-- C10: startup registers each of the four platform handlers twice (once per
`ResponsiveManager.init()` call, one from each `DOMContentLoaded` handler);
dispatching one resize, orientation-change or wheel-zoom event through both
copies produces exactly the effects of a single run, because the second copy
sees the already-updated state and its change guard fires; but a visibility
change has no guard, so one hidden event delivers `"hide"` to every subscriber
twice, and one shown event delivers `"show"` twice. -/
theorem C10_double_registration (w h z : Nat) (s : ViewportState) (d : Dom) :
    startupRegistrations.count EvType.resize = 2 ∧
    startupRegistrations.count EvType.orientationchange = 2 ∧
    startupRegistrations.count EvType.visibilitychange = 2 ∧
    startupRegistrations.count EvType.wheel = 2 ∧
    (dispatchN (onResize w h) 2 s d).2.2 = (onResize w h s d).2.2 ∧
    (dispatchN (onOrientationChange w h) 2 s d).2.2 = (onOrientationChange w h s d).2.2 ∧
    (dispatchN (onZoomChange z) 2 s d).2.2 = (onZoomChange z s d).2.2 ∧
    (dispatchN (onVisibilityChange true w h) 2 s d).2.2 =
      [Effect.notified "hide", Effect.notified "hide"] ∧
    ((dispatchN (onVisibilityChange false w h) 2 s d).2.2.count (Effect.notified "show")) = 2 := by
  refine ⟨by decide, by decide, by decide, by decide, ?_, ?_, ?_, ?_, ?_⟩
  · rw [dispatch2_effects, onResize_second_noop]
    simp
  · rw [dispatch2_effects]
    have hset := onOrientationChange_sets w h s d
    rw [onOrientationChange_noop_of_eq w h _ _ hset]
    simp
  · rw [dispatch2_effects]
    have hset := onZoomChange_sets z s d
    rw [onZoomChange_noop_of_eq z _ _ hset]
    simp
  · rw [dispatch2_effects]
    simp [onVisibilityChange]
  · have e1 : onVisibilityChange false w h s d =
        ((onResize w h s d).1, (onResize w h s d).2.1,
          (onResize w h s d).2.2 ++ [Effect.notified "show"]) := by
      simp [onVisibilityChange]
    have e2 : onVisibilityChange false w h (onResize w h s d).1 (onResize w h s d).2.1 =
        ((onResize w h s d).1, (onResize w h s d).2.1, [Effect.notified "show"]) := by
      simp [onVisibilityChange, onResize_second_noop w h s d]
    have e3 : (onResize w h s d).2.2.count (Effect.notified "show") = 0 := by
      unfold onResize
      split_ifs <;> simp
    rw [dispatch2_effects]
    simp [e1, e2, e3, List.count_append]

end ResponsiveUtils
